import Mathlib

/-
Shallow embedding of `sktime/clustering/dbscan.py` (class `TimeSeriesDBSCAN`).

The file models:
  * Python object identity (needed for the `X is self._X` check in `_predict`)
    by tagging each panel object with a reference number `ref`;
  * the constructor `__init__` with its tag cloning / overriding logic;
  * `_fit`, including the computation of the distance matrix, the construction
    of the delegated sklearn `DBSCAN` with `metric="precomputed"`, and the
    reflective copy of the delegated fitted attributes driven by the string
    list `DELEGATED_FITTED_PARAMS` (which in the source contains the literal
    `"components_ "` with a trailing space);
  * `_predict`, including the identity shortcut, the `update_data` merge, the
    warning, and the refit-a-clone path.

The sklearn `DBSCAN` estimator itself and the concrete pairwise distances are
external collaborators (out of scope per the source's design); the behaviour
of `DBSCAN.fit` is therefore a parameter `df : DelegateFit` mapping the
constructor parameters and the supplied matrix to the attribute dictionary the
fitted delegate exposes.  Attribute access is modelled by string-keyed lookup,
exactly mirroring the source's `hasattr`/`getattr`/`setattr` loop.
-/

namespace SktimeDBSCAN

/-- One time series instance of a panel.  The panel data itself is opaque to
the adapter; instances carry an index `key` (used by `update_data` to decide
whether an instance is already present) and a value sequence. -/
structure TSInstance where
  key : Nat
  series : List Rat
deriving DecidableEq, Repr

/-- A Python object holding a panel: `ref` models the object's identity
(`id()` / the `is` operator), `val` its value.  Two objects with equal `val`
but different `ref` are value-equal yet not reference-identical. -/
structure Obj where
  ref : Nat
  val : List TSInstance
deriving DecidableEq, Repr

/-- Capability tags of a `BasePairwiseTransformerPanel` distance object. -/
structure PairwiseTags where
  capability_multivariate : Bool
  capability_unequal_length : Bool
  capability_missing_values : Bool
deriving DecidableEq, Repr

/-- A pairwise panel transformer: capability tags plus the pairwise distance
computation itself (panel to matrix).  The concrete distances are external
collaborators, so `transform` is an arbitrary function. -/
structure BasePairwiseTransformerPanel where
  tags : PairwiseTags
  transform : List TSInstance → List (List Rat)

/-- The `distance` constructor argument: either a string keyword or a
`BasePairwiseTransformerPanel` object. -/
inductive DistanceArg where
  | str : String → DistanceArg
  | pairwise : BasePairwiseTransformerPanel → DistanceArg

/-- Values stored in attribute dictionaries: index arrays, label arrays and
matrices, covering the three delegated fitted attributes of sklearn DBSCAN. -/
inductive Val where
  | nats : List Nat → Val
  | ints : List Int → Val
  | mat : List (List Rat) → Val
deriving DecidableEq, Repr

/-- Python exceptions relevant to the adapter. -/
inductive PyError where
  | typeError : PyError
  | attributeError : String → PyError
  | notFittedError : PyError
deriving DecidableEq, Repr

/-- The adapter's tag dictionary (the subset relevant to the claims). -/
structure AdapterTags where
  capability_multivariate : Bool
  capability_unequal_length : Bool
  capability_missing_values : Bool
  X_inner_mtype : List String
  capability_out_of_sample : Bool
  capability_predict : Bool
  capability_predict_proba : Bool
deriving DecidableEq, Repr

/-- The class-level `_tags` dictionary of `TimeSeriesDBSCAN`.  Setting the
`X_inner_mtype` tag to the single string `"numpy3D"` is modelled as the
singleton list. -/
def default_tags : AdapterTags :=
  { capability_multivariate := true
    capability_unequal_length := true
    capability_missing_values := true
    X_inner_mtype := ["pd-multiindex", "numpy3D"]
    capability_out_of_sample := false
    capability_predict := true
    capability_predict_proba := false }

/-- The non-distance constructor parameters of the adapter (all delegated). -/
structure ConfigParams where
  eps : Rat
  min_samples : Int
  algorithm : String
  leaf_size : Int
  n_jobs : Option Int
deriving DecidableEq, Repr

/-- Constructor parameters of the delegated sklearn `DBSCAN`. -/
structure DBSCANParams where
  metric : String
  eps : Rat
  min_samples : Int
  algorithm : String
  leaf_size : Int
  n_jobs : Option Int
deriving DecidableEq, Repr

/-- The delegated sklearn `DBSCAN` estimator: its constructor parameters, the
matrix its `fit` received (recorded verbatim), and the attribute dictionary it
exposes after `fit`. -/
structure DBSCANModel where
  params : DBSCANParams
  fit_input : Option (List (List Rat))
  attrs : List (String × Val)
deriving DecidableEq, Repr

/-- The behaviour of `sklearn.cluster.DBSCAN.fit`: from the constructor
parameters and the supplied matrix to the attribute dictionary of the fitted
delegate.  sklearn is an external collaborator, so this is a parameter of the
embedding. -/
def DelegateFit : Type :=
  DBSCANParams → List (List Rat) → List (String × Val)

/-- The state of a `TimeSeriesDBSCAN` instance.  `_X` is the stored fit data
(`self._X`), `dbscan_` the delegated estimator, `fitted_attrs` the string-keyed
attribute dictionary holding the attributes copied from the delegate, and
`is_fitted` the fitted flag maintained by the base class. -/
structure TimeSeriesDBSCAN where
  distance : DistanceArg
  params : ConfigParams
  tags : AdapterTags
  is_fitted : Bool
  _X : Option Obj
  dbscan_ : Option DBSCANModel
  fitted_attrs : List (String × Val)

/-- `DELEGATED_PARAMS` from the source (line 83). -/
def DELEGATED_PARAMS : List String :=
  ["eps", "min_samples", "algorithm", "leaf_size", "n_jobs"]

/-- `DELEGATED_FITTED_PARAMS` from the source (line 84), verbatim: the second
entry is the string `"components_ "` with a trailing space. -/
def DELEGATED_FITTED_PARAMS : List String :=
  ["core_sample_indices_", "components_ ", "labels_"]

/-- `__init__`: stores the parameters, clones the three capability tags from a
`BasePairwiseTransformerPanel` distance, and overrides `X_inner_mtype` and
`capability:unequal_length` for a string distance. -/
def init (distance : DistanceArg) (params : ConfigParams) : TimeSeriesDBSCAN :=
  let tags0 := default_tags
  let tags1 :=
    match distance with
    | .pairwise p =>
        { tags0 with
          capability_multivariate := p.tags.capability_multivariate
          capability_unequal_length := p.tags.capability_unequal_length
          capability_missing_values := p.tags.capability_missing_values }
    | .str _ => tags0
  let tags2 :=
    match distance with
    | .str _ =>
        { tags1 with
          X_inner_mtype := ["numpy3D"]
          capability_unequal_length := false }
    | .pairwise _ => tags1
  { distance := distance
    params := params
    tags := tags2
    is_fitted := false
    _X := none
    dbscan_ := none
    fitted_attrs := [] }

/-- Evaluation of `distance(X)` in `_fit`: a pairwise transformer object is
called on the panel; a string is not callable in Python, so the call raises
`TypeError`. -/
def callDistance : DistanceArg → List TSInstance → Except PyError (List (List Rat))
  | .str _, _ => .error .typeError
  | .pairwise p, X => .ok (p.transform X)

/-- `setattr` on the string-keyed attribute dictionary. -/
def setAttr (attrs : List (String × Val)) (key : String) (v : Val) :
    List (String × Val) :=
  (key, v) :: attrs.filter (fun kv => kv.1 != key)

/-- `getattr` on the adapter's fitted attributes; a missing attribute raises
`AttributeError`. -/
def getAttrVal (self : TimeSeriesDBSCAN) (key : String) : Except PyError Val :=
  match self.fitted_attrs.lookup key with
  | some v => .ok v
  | none => .error (.attributeError key)

/-- Result of a `fit` call: the resulting adapter (or the raised exception),
together with the number of times the distance provider was invoked. -/
structure FitOutcome where
  result : Except PyError TimeSeriesDBSCAN
  providerCalls : Nat

/-- `_fit` from the source (lines 122-151): stores `X` as `self._X`, computes
`distmat = distance(X)`, constructs the delegated `DBSCAN` with
`metric="precomputed"` and the `DELEGATED_PARAMS` values, fits it on `distmat`
unchanged, and copies every attribute named in `DELEGATED_FITTED_PARAMS` that
the delegate has onto the adapter. -/
def _fit (df : DelegateFit) (self : TimeSeriesDBSCAN) (X : Obj) : FitOutcome :=
  let self1 := { self with _X := some X }
  match callDistance self1.distance X.val with
  | .error e => { result := .error e, providerCalls := 0 }
  | .ok distmat =>
      let dparams : DBSCANParams :=
        { metric := "precomputed"
          eps := self1.params.eps
          min_samples := self1.params.min_samples
          algorithm := self1.params.algorithm
          leaf_size := self1.params.leaf_size
          n_jobs := self1.params.n_jobs }
      let model : DBSCANModel :=
        { params := dparams
          fit_input := some distmat
          attrs := df dparams distmat }
      let self2 := { self1 with dbscan_ := some model }
      let newAttrs := DELEGATED_FITTED_PARAMS.foldl
        (fun acc key =>
          match model.attrs.lookup key with
          | some v => setAttr acc key v
          | none => acc)
        self2.fitted_attrs
      { result := .ok { self2 with fitted_attrs := newAttrs }
        providerCalls := 1 }

/-- Modelled from the spec: the public `fit` of the base class `BaseClusterer`
is not under `src/`; per the spec's state machine it runs `_fit` and marks the
estimator fitted on success (Unfitted to Fitted transition). -/
def fit (df : DelegateFit) (self : TimeSeriesDBSCAN) (X : Obj) : FitOutcome :=
  let o := _fit df self X
  { o with result := o.result.map (fun a => { a with is_fitted := true }) }

/-- Modelled from the spec: `update_data` from `sktime.datatypes` is not under
`src/`.  Per the spec it has append semantics: instances of `X_new` whose key
is not already present in `X` are appended after `X`, instances already
present are left unchanged, order is fit-data first then new. -/
def update_data (X X_new : List TSInstance) : List TSInstance :=
  X ++ X_new.filter (fun i => !((X.map TSInstance.key).contains i.key))

/-- The warning message emitted on the out-of-sample `_predict` path
(source lines 171-177). -/
def refitWarning : String :=
  "sklearn and sktime DBSCAN estimators do not support different X in fit and predict, but a new X was passed in predict. Therefore, a clone of TimeSeriesDBSCAN will be fit, and results returned, without updating the state of the fitted estimator."

/-- Result of a `predict` call: the state of the adapter after the call, the
warnings emitted (modelling `sktime.utils.warnings.warn`, not under `src/`),
and the returned labels or raised exception. -/
structure PredictOutcome where
  post : TimeSeriesDBSCAN
  warnings : List String
  result : Except PyError Val

/-- `_predict` from the source (lines 153-179): if `X is self._X` (reference
identity), return `self.labels_`; otherwise merge via `update_data`, warn,
construct a fresh clone with identical configuration (`self.clone()` re-runs
`__init__` on the stored constructor parameters), fit it on the merged data
(a fresh object), and return the clone's `labels_`. -/
def _predict (df : DelegateFit) (self : TimeSeriesDBSCAN) (X : Obj) :
    PredictOutcome :=
  if (match self._X with
      | some fX => X.ref == fX.ref
      | none => false) then
    { post := self, warnings := [], result := getAttrVal self "labels_" }
  else
    let fXv := match self._X with | some fX => fX.val | none => []
    let fXr := match self._X with | some fX => fX.ref | none => 0
    let all_X : Obj := { ref := fXr + X.ref + 1, val := update_data fXv X.val }
    let cl := init self.distance self.params
    let o := fit df cl all_X
    { post := self
      warnings := [refitWarning]
      result :=
        match o.result with
        | .ok c => getAttrVal c "labels_"
        | .error e => .error e }

/-- Modelled from the spec: the public `predict` of the base class is not
under `src/`; per the spec's state machine, `predict` before any successful
`fit` fails with a distinct NotFitted condition, and otherwise delegates to
`_predict`. -/
def predict (df : DelegateFit) (self : TimeSeriesDBSCAN) (X : Obj) :
    PredictOutcome :=
  if self.is_fitted then _predict df self X
  else { post := self, warnings := [], result := .error .notFittedError }

/-! ### Concrete fixtures used in closed evaluations and witnesses -/

/-- A concrete pairwise distance object: distance between two instances is
the absolute difference of their keys — symmetric, non-negative, zero
diagonal. -/
def p0 : BasePairwiseTransformerPanel :=
  { tags :=
      { capability_multivariate := true
        capability_unequal_length := true
        capability_missing_values := true }
    transform := fun X =>
      X.map (fun a => X.map (fun b => (((a.key : Int) - (b.key : Int)).natAbs : Rat))) }

/-- A concrete delegate behaviour shaped like `sklearn.cluster.DBSCAN.fit`,
which after fitting always exposes the three attributes
`core_sample_indices_`, `components_` and `labels_` (exactly the attributes
the source's own docstring documents). -/
def sklearnDBSCANFit : DelegateFit := fun _ distmat =>
  [("core_sample_indices_", Val.nats (List.range distmat.length)),
   ("components_", Val.mat distmat),
   ("labels_", Val.ints (List.replicate distmat.length 0))]

/-- A concrete configuration. -/
def cfg0 : ConfigParams :=
  { eps := 1, min_samples := 2, algorithm := "auto", leaf_size := 30, n_jobs := none }

/-- A concrete three-instance panel object with reference number 1. -/
def X0 : Obj := { ref := 1, val := [⟨0, [0]⟩, ⟨1, [0]⟩, ⟨5, [0]⟩] }

/-- The adapter constructed on the concrete pairwise distance. -/
def adapter0 : TimeSeriesDBSCAN := init (.pairwise p0) cfg0

/-- The adapter after a successful `fit` on `X0`. -/
def fitted0 : TimeSeriesDBSCAN :=
  ((fit sklearnDBSCANFit adapter0 X0).result).toOption.getD adapter0

/-- A panel object that is value-equal to `X0` but not reference-identical
(reference number 2). -/
def X0copy : Obj := { ref := 2, val := X0.val }

/-- A panel object disjoint from `X0` (a fresh instance with key 7). -/
def X1new : Obj := { ref := 2, val := [⟨7, [0]⟩] }

/-! ### Claims -/

/-- C1: the claim states that after every successful `fit` the adapter exposes
the delegate's `components_` alongside `core_sample_indices_` and `labels_`.
This fails on the code: `DELEGATED_FITTED_PARAMS` contains the misspelled
key `"components_ "` (trailing space), so the `hasattr` check never finds it
and `components_` is never copied, even though the delegate exposes it.  Here,
after a concrete successful fit, the delegate's attribute dictionary holds
`components_` (first conjunct) while the adapter's does not (second
conjunct); the other two attributes are copied as claimed. -/
theorem C1_components_never_copied :
    (match fitted0.dbscan_ with
     | some m => m.attrs.lookup "components_"
     | none => none) = some (Val.mat [[0, 1, 5], [1, 0, 4], [5, 4, 0]]) ∧
    fitted0.fitted_attrs.lookup "components_" = none ∧
    fitted0.fitted_attrs.lookup "core_sample_indices_" = some (Val.nats [0, 1, 2]) ∧
    fitted0.fitted_attrs.lookup "labels_" = some (Val.ints [0, 0, 0]) := by
  refine ⟨?_, ?_, ?_, ?_⟩ <;> rfl

/-- C2: the claim states that with a string-keyword distance, `fit` computes
the distance matrix via the string-named provider and succeeds.  This fails
on the code: `_fit` evaluates `distmat = distance(X)` with `distance` the raw
string object, which is not callable, so every `fit` with a string distance
raises `TypeError` and the provider is never invoked. -/
theorem C2_string_distance_fit_raises (s : String) (cfg : ConfigParams)
    (df : DelegateFit) (X : Obj) :
    (fit df (init (.str s) cfg) X).result = .error .typeError ∧
    (fit df (init (.str s) cfg) X).providerCalls = 0 :=
  ⟨rfl, rfl⟩

/-- C3: for a fitted adapter, `_predict` takes the O(1) shortcut returning the
stored `labels_` exactly when `X` is reference-identical to the stored fit
data (the check compares object identity, not values); the shortcut is taken
iff no warning is emitted, and on the shortcut the result is exactly the
stored `labels_` attribute. -/
theorem C3_identity_shortcut (df : DelegateFit) (a : TimeSeriesDBSCAN)
    (fX : Obj) (h : a._X = some fX) (X : Obj) :
    ((_predict df a X).warnings = [] ↔ X.ref = fX.ref) ∧
    (X.ref = fX.ref → (_predict df a X).result = getAttrVal a "labels_") := by
  unfold _predict
  rw [h]
  by_cases hr : X.ref = fX.ref
  · simp [hr]
  · simp [hr]

/-- Witness for C3 at a concrete fitted adapter and a panel object that is
value-equal to the fit data but has a different reference number: the
shortcut is not taken (the reference check fails, so a warning is emitted). -/
theorem C3_identity_shortcut_witness :
    ((_predict sklearnDBSCANFit fitted0 X0copy).warnings = [] ↔ X0copy.ref = X0.ref) ∧
    (X0copy.ref = X0.ref →
      (_predict sklearnDBSCANFit fitted0 X0copy).result = getAttrVal fitted0 "labels_") :=
  C3_identity_shortcut sklearnDBSCANFit fitted0 X0 rfl X0copy

/-- C4: for a fitted adapter and an `X` not reference-identical to the stored
fit data, `_predict` emits the documented warning and returns the `labels_`
of a fresh clone (same constructor arguments) fitted on
`update_data fX.val X.val`; `update_data` has append semantics — when the new
instances' keys are disjoint from the fit data, the merged panel is exactly
fit data followed by new data, and in all cases its prefix is the unchanged
fit data. -/
theorem C4_refit_clone_path (df : DelegateFit) (a : TimeSeriesDBSCAN)
    (fX : Obj) (h : a._X = some fX) (X : Obj) (hne : X.ref ≠ fX.ref) :
    (_predict df a X).warnings = [refitWarning] ∧
    (_predict df a X).result =
      (match (fit df (init a.distance a.params)
          { ref := fX.ref + X.ref + 1, val := update_data fX.val X.val }).result with
       | .ok c => getAttrVal c "labels_"
       | .error e => .error e) ∧
    ((∀ i ∈ X.val, (fX.val.map TSInstance.key).contains i.key = false) →
      update_data fX.val X.val = fX.val ++ X.val) ∧
    (update_data fX.val X.val).take fX.val.length = fX.val := by
  refine ⟨?_, ?_, ?_, ?_⟩
  · unfold _predict
    rw [h]
    simp [hne]
  · unfold _predict
    rw [h]
    simp [hne]
  · intro hdisj
    unfold update_data
    congr 1
    apply List.filter_eq_self.mpr
    intro i hi
    simpa using hdisj i hi
  · unfold update_data
    exact List.take_left _ _

/-- Witness for C4: concrete fitted adapter, concrete disjoint new panel. -/
theorem C4_refit_clone_path_witness :
    (_predict sklearnDBSCANFit fitted0 X1new).warnings = [refitWarning] ∧
    (_predict sklearnDBSCANFit fitted0 X1new).result =
      (match (fit sklearnDBSCANFit (init fitted0.distance fitted0.params)
          { ref := X0.ref + X1new.ref + 1, val := update_data X0.val X1new.val }).result with
       | .ok c => getAttrVal c "labels_"
       | .error e => .error e) ∧
    ((∀ i ∈ X1new.val, (X0.val.map TSInstance.key).contains i.key = false) →
      update_data X0.val X1new.val = X0.val ++ X1new.val) ∧
    (update_data X0.val X1new.val).take X0.val.length = X0.val :=
  C4_refit_clone_path sklearnDBSCANFit fitted0 X0 rfl X1new (by decide)

/-- C5: for a fitted adapter and an `X` not reference-identical to the stored
fit data, `_predict` leaves the adapter's state unchanged — in particular the
copied fitted attributes (`labels_`, `core_sample_indices_`, `components_`
live in `fitted_attrs`) and the stored fit data `_X`.  The refit happens on a
fresh clone, never on the adapter itself. -/
theorem C5_predict_preserves_fitted_state (df : DelegateFit)
    (a : TimeSeriesDBSCAN) (fX : Obj) (h : a._X = some fX) (X : Obj)
    (hne : X.ref ≠ fX.ref) :
    (_predict df a X).post = a ∧
    (_predict df a X).post.fitted_attrs = a.fitted_attrs ∧
    (_predict df a X).post._X = a._X := by
  have hp : (_predict df a X).post = a := by
    unfold _predict
    split <;> rfl
  exact ⟨hp, by rw [hp], by rw [hp]⟩

/-- Witness for C5 at the concrete fitted adapter and disjoint new panel. -/
theorem C5_predict_preserves_fitted_state_witness :
    (_predict sklearnDBSCANFit fitted0 X1new).post = fitted0 ∧
    (_predict sklearnDBSCANFit fitted0 X1new).post.fitted_attrs = fitted0.fitted_attrs ∧
    (_predict sklearnDBSCANFit fitted0 X1new).post._X = fitted0._X :=
  C5_predict_preserves_fitted_state sklearnDBSCANFit fitted0 X0 rfl X1new (by decide)

/-- C6: an adapter constructed with a string distance declares
`capability:unequal_length = False` and `X_inner_mtype = "numpy3D"` (the
single fixed array shape), downgrading the class defaults, which declare
unequal-length support and the wider mtype list. -/
theorem C6_string_distance_downgrades_tags (s : String) (cfg : ConfigParams) :
    (init (.str s) cfg).tags.capability_unequal_length = false ∧
    (init (.str s) cfg).tags.X_inner_mtype = ["numpy3D"] ∧
    default_tags.capability_unequal_length = true ∧
    default_tags.X_inner_mtype = ["pd-multiindex", "numpy3D"] :=
  ⟨rfl, rfl, rfl, rfl⟩

/-- C7: an adapter constructed with a `BasePairwiseTransformerPanel` distance
clones the three capability tags from the distance object, so each of the
adapter's declared capabilities equals the provider's — in particular a
provider declaring no unequal-length support yields an adapter declaring no
unequal-length support, and the adapter's capabilities never exceed the
provider's. -/
theorem C7_capability_propagation (p : BasePairwiseTransformerPanel)
    (cfg : ConfigParams) :
    (init (.pairwise p) cfg).tags.capability_multivariate = p.tags.capability_multivariate ∧
    (init (.pairwise p) cfg).tags.capability_unequal_length = p.tags.capability_unequal_length ∧
    (init (.pairwise p) cfg).tags.capability_missing_values = p.tags.capability_missing_values :=
  ⟨rfl, rfl, rfl⟩

/-- C8: on every `fit` with a callable provider, the delegated DBSCAN is
constructed with `metric = "precomputed"` and with `eps`, `min_samples`,
`algorithm`, `leaf_size`, `n_jobs` passed through verbatim from the adapter's
configuration, and is fitted on the provider's distance matrix. -/
theorem C8_delegate_configuration (p : BasePairwiseTransformerPanel)
    (cfg : ConfigParams) (X : Obj) (df : DelegateFit) :
    ∃ a, (fit df (init (.pairwise p) cfg) X).result = .ok a ∧
      ∃ m, a.dbscan_ = some m ∧
        m.params.metric = "precomputed" ∧
        m.params.eps = cfg.eps ∧
        m.params.min_samples = cfg.min_samples ∧
        m.params.algorithm = cfg.algorithm ∧
        m.params.leaf_size = cfg.leaf_size ∧
        m.params.n_jobs = cfg.n_jobs ∧
        m.fit_input = some (p.transform X.val) :=
  ⟨_, rfl, _, rfl, rfl, rfl, rfl, rfl, rfl, rfl, rfl⟩

/-- C9: `predict` before any successful `fit` fails with the distinct
NotFitted condition (no warning, no other error). -/
theorem C9_predict_before_fit_not_fitted (d : DistanceArg) (cfg : ConfigParams)
    (df : DelegateFit) (X : Obj) :
    (predict df (init d cfg) X).result = .error .notFittedError ∧
    (predict df (init d cfg) X).warnings = [] :=
  ⟨rfl, rfl⟩

/-- C10: on every `fit` with a callable provider, the provider is invoked
exactly once and its returned matrix is passed to the delegate's fit
unchanged; this holds for every provider function whatsoever — including one
returning a non-square, asymmetric or negative matrix — so the adapter
performs no validity check of its own. -/
theorem C10_provider_once_matrix_unchecked (p : BasePairwiseTransformerPanel)
    (cfg : ConfigParams) (X : Obj) (df : DelegateFit) :
    (fit df (init (.pairwise p) cfg) X).providerCalls = 1 ∧
    ∃ a, (fit df (init (.pairwise p) cfg) X).result = .ok a ∧
      ∃ m, a.dbscan_ = some m ∧ m.fit_input = some (p.transform X.val) :=
  ⟨rfl, _, rfl, _, rfl, rfl⟩

end SktimeDBSCAN
